import Mathlib

/-!
Verification development for the tradingview_loagreen order router.

Shallow embedding of the two source files:
  * `kelly.py`   — dynamic Kelly-fraction position sizing,
  * `main.py`    — webhook dispatcher (buy path), symbol routing, market-hours gate.

Python floats are modelled exactly over the rationals via `PFloat`, which also
carries NaN (the value produced by the pandas sample standard deviation of an
empty or singleton series) and exact square roots (the value of `std` on longer
series).  External collaborators (the Upbit / KIS adapters, pyupbit, yfinance,
the Notion journal) are modelled as an environment record: each field is the
result the collaborator would return, already reflecting the collaborator's own
internal error handling as written in the source.
-/

namespace TVLoagreen

/-- Model of a Python float as it flows through `kelly.py`: either NaN (as
produced by `pandas.Series.std()` on fewer than two observations), an exact
rational value, or the exact square root `√q` of a nonnegative rational
(as produced by `std` on two or more observations).  Real-valued arithmetic is
modelled exactly rather than with IEEE rounding. -/
inductive PFloat where
  | nan : PFloat
  | val : ℚ → PFloat
  | sqrtOf : ℚ → PFloat
deriving Repr, DecidableEq

namespace PFloat

/-- Python comparison `x <= c` for a float `x` that may be NaN: NaN compares
false; `√q ≤ c` iff `0 ≤ c` and `q ≤ c²` (the `sqrtOf` argument is a variance,
hence nonnegative). -/
def leq (x : PFloat) (c : ℚ) : Bool :=
  match x with
  | nan => false
  | val v => decide (v ≤ c)
  | sqrtOf q => decide (0 ≤ c) && decide (q ≤ c ^ 2)

/-- Python comparison `c > x` (used by `max(x, c)`): false when `x` is NaN. -/
def gtOf (c : ℚ) (x : PFloat) : Bool :=
  match x with
  | nan => false
  | val v => decide (v < c)
  | sqrtOf q => decide (0 ≤ c) && decide (q < c ^ 2)

/-- Python comparison `c < x` (used by `min(x, c)`): false when `x` is NaN. -/
def ltOf (c : ℚ) (x : PFloat) : Bool :=
  match x with
  | nan => false
  | val v => decide (c < v)
  | sqrtOf q => decide (c < 0) || decide (c ^ 2 < q)

/-- Python `max(x, c)` with the float `x` listed first: the second argument
replaces the first exactly when it compares strictly greater, so NaN is kept. -/
def pyMaxRight (x : PFloat) (c : ℚ) : PFloat :=
  if gtOf c x then val c else x

/-- Python `max(c, x)` with the constant listed first: `x` is returned exactly
when it compares strictly greater than `c`, so NaN yields `c`. -/
def pyMaxLeft (c : ℚ) (x : PFloat) : PFloat :=
  if ltOf c x then x else val c

/-- Python `min(x, c)` with the float `x` listed first: the second argument
replaces the first exactly when it compares strictly smaller, so NaN is kept. -/
def pyMinRight (x : PFloat) (c : ℚ) : PFloat :=
  if ltOf c x then val c else x

/-- Python division `c / x` of a positive constant by a float: NaN propagates;
`c / √q = √(c² / q)` for the positive values this is applied to. -/
def divOf (c : ℚ) (x : PFloat) : PFloat :=
  match x with
  | nan => nan
  | val v => val (c / v)
  | sqrtOf q => sqrtOf (c ^ 2 / q)

/-- Python multiplication `c * x` by a nonnegative constant: NaN propagates;
`c * √q = √(c² q)`. -/
def mulOf (c : ℚ) (x : PFloat) : PFloat :=
  match x with
  | nan => nan
  | val v => val (c * v)
  | sqrtOf q => sqrtOf (c ^ 2 * q)

end PFloat

/-- Python `max(a, b)` on two non-NaN floats: the second argument wins only
when it compares strictly greater. -/
def pyMax (a b : ℚ) : ℚ := if a < b then b else a

/-- Python `min(a, b)` on two non-NaN floats: the second argument wins only
when it compares strictly smaller. -/
def pyMin (a b : ℚ) : ℚ := if b < a then b else a

/-! ## kelly.py — data model -/

/-- Model of the pandas DataFrame returned by the two history fetchers.
`cols` are the column labels; `rows` are the values of the single price column
the sizing function reads (row order, most recent last).  `rows` is empty
exactly when the frame is empty; when the price column is absent the fetchers
of this repository never populate other columns, so `rows` still witnesses
emptiness. -/
structure Frame where
  cols : List String
  rows : List ℚ
deriving Repr, DecidableEq

/-- Model of the empty DataFrame `pd.DataFrame()`. -/
def Frame.emptyFrame : Frame := ⟨[], []⟩

/-- Model of `df.empty`. -/
def Frame.isEmpty (f : Frame) : Bool := f.rows.isEmpty

/-- Model of `series.pct_change().dropna()` on the price column: the percentage
change between consecutive values; the first entry of `pct_change` is NaN and
is dropped.  Prices are positive in this domain, so the division is by a
nonzero value on every path the program exercises. -/
def pct_change_dropna : List ℚ → List ℚ
  | [] => []
  | [_] => []
  | x :: y :: rest => (y - x) / x :: pct_change_dropna (y :: rest)

/-- Model of the arithmetic mean of a list of rationals. -/
def listMean (xs : List ℚ) : ℚ := xs.sum / (xs.length : ℚ)

/-- Model of the sample variance with one delta degree of freedom
(the pandas default `ddof=1`). -/
def sampleVariance (xs : List ℚ) : ℚ :=
  (xs.map (fun x => (x - listMean xs) ^ 2)).sum / ((xs.length : ℚ) - 1)

/-- Model of `float(series.std())` (pandas, `ddof=1`): NaN on fewer than two
observations (`0/0` for one observation, NaN for none), otherwise the exact
square root of the sample variance. -/
def sampleStd (xs : List ℚ) : PFloat :=
  if xs.length ≤ 1 then PFloat.nan else PFloat.sqrtOf (sampleVariance xs)

/-! ## kelly.py — symbol classification and sizing -/

/-- Translation of `kelly._detect_symbol_type`: empty is unknown; a hyphen
anywhere means crypto; exactly six digits means stock; anything else is
unknown.  Python `str.isdigit` is modelled with ASCII digits, which agrees on
every symbol this system routes. -/
def «_detect_symbol_type» (symbol : String) : String :=
  if symbol = "" then "unknown"
  else if '-' ∈ symbol.data then "crypto"
  else if symbol.data.all Char.isDigit ∧ symbol.length = 6 then "stock"
  else "unknown"

/-- Value stored in a Python dict this program builds: a string, a number, or
a nested dict (used for `kelly_stats` and order details in webhook responses). -/
inductive Val where
  | str : String → Val
  | num : PFloat → Val
  | dict : List (String × Val) → Val
deriving Repr

/-- A Python dict as the program builds them: an ordered association list. -/
abbrev Dict := List (String × Val)

/-- Key lookup in a dict model. -/
def Dict.find : Dict → String → Option Val
  | [], _ => none
  | (k, v) :: rest, key => if k = key then some v else Dict.find rest key

/-- Translation of the volatility-tier selection of
`calculate_dynamic_kelly_fraction` (the four-way `if` on `volatility`):
returns the tier fraction and the tier name.  NaN fails every `≤` comparison
and therefore lands in the final branch. -/
def tier_for_volatility (volatility : PFloat) : ℚ × String :=
  if volatility.leq 0.01 then (0.40, "저변동성(공격적)")
  else if volatility.leq 0.02 then (0.30, "보통변동성(균형)")
  else if volatility.leq 0.03 then (0.20, "중변동성(보수적)")
  else (0.15, "고변동성(안전)")

/-- Translation of the volatility computation of
`calculate_dynamic_kelly_fraction`: when the frame is nonempty and carries the
expected price column, the sample standard deviation of the dropped-NaN
percentage changes; otherwise the documented default `0.02`. -/
def volatility_from (df : Frame) (price_column : String) : PFloat :=
  if ¬ df.isEmpty ∧ price_column ∈ df.cols then
    sampleStd (pct_change_dropna df.rows)
  else
    PFloat.val 0.02

/-- Environment of `calculate_dynamic_kelly_fraction`: the frames its two
fetch helpers would return (each helper already catches its own exceptions and
degrades to an empty frame, as written in `_get_crypto_candles` and
`_get_stock_history`), and a flag modelling an exception raised inside the
function's `try` body, which sends control to its `except` clause. -/
structure KellyEnv where
  fetchCrypto : String → Frame
  fetchStock : String → Frame
  exc : Bool

/-- Translation of `kelly.calculate_dynamic_kelly_fraction`.  Returns the
final KRW amount and the decision-record dict.  When `env.exc` holds, the
`except` clause returns `max(available_krw * 0.25, 5000)` with the minimal
error record; otherwise the body resolves the volatility symbol (Python
falsiness: `None` or the empty string fall back to `symbol`), classifies it,
fetches history, computes volatility, selects the tier, clamps the fraction to
`[0.10, 0.50]`, and bounds the amount by the 5000 floor and the available
capital.  HTTP detail strings elsewhere omit Python's numeric interpolation. -/
def calculate_dynamic_kelly_fraction (env : KellyEnv) (symbol : String)
    (available_krw : ℚ) (volatility_symbol : Option String) : ℚ × Dict :=
  if env.exc then
    (pyMax (available_krw * 0.25) 5000,
     [("method", Val.str "error"), ("kelly_fraction", Val.num (PFloat.val 0.25))])
  else
    let vol_symbol :=
      match volatility_symbol with
      | some s => if s = "" then symbol else s
      | none => symbol
    let symbol_type := «_detect_symbol_type» vol_symbol
    let dfc : Frame × String :=
      if symbol_type = "crypto" then (env.fetchCrypto vol_symbol, "close")
      else if symbol_type = "stock" then (env.fetchStock vol_symbol, "Close")
      else (Frame.emptyFrame, "close")
    let volatility := volatility_from dfc.1 dfc.2
    let tier := tier_for_volatility volatility
    let tier_kelly := tier.1
    let tier_name := tier.2
    let base_kelly : ℚ := 0.25
    let volatility_adjusted_kelly :=
      PFloat.mulOf base_kelly (PFloat.divOf 0.02 (PFloat.pyMaxRight volatility 0.005))
    let volatility_kelly :=
      PFloat.pyMaxLeft 0.10 (PFloat.pyMinRight volatility_adjusted_kelly 0.50)
    let fixed_kelly : ℚ := 0.25
    let aggressive_kelly : ℚ := 0.50
    let kelly_fraction : ℚ := pyMax 0.10 (pyMin tier_kelly 0.50)
    let kelly_amount := available_krw * kelly_fraction
    let final_amount := pyMax kelly_amount 5000
    let final_amount2 := pyMin final_amount available_krw
    (final_amount2,
     [("method", Val.str ("구간별_Kelly_" ++ tier_name)),
      ("volatility", Val.num volatility),
      ("volatility_kelly", Val.num volatility_kelly),
      ("fixed_kelly", Val.num (PFloat.val fixed_kelly)),
      ("aggressive_kelly", Val.num (PFloat.val aggressive_kelly)),
      ("tier_kelly", Val.num (PFloat.val tier_kelly)),
      ("tier_name", Val.str tier_name),
      ("kelly_fraction", Val.num (PFloat.val kelly_fraction)),
      ("kelly_amount", Val.num (PFloat.val kelly_amount)),
      ("final_amount", Val.num (PFloat.val final_amount2)),
      ("available_krw", Val.num (PFloat.val available_krw)),
      ("min_threshold", Val.num (PFloat.val 0.10)),
      ("max_threshold", Val.num (PFloat.val 0.50))])

/-! ## main.py — symbol routing and market hours -/

/-- Translation of `main.detect_symbol_type`: the webhook's copy of the
classifier, written independently from its own source lines. -/
def detect_symbol_type (symbol : String) : String :=
  if symbol = "" then "unknown"
  else if '-' ∈ symbol.data then "crypto"
  else if symbol.data.all Char.isDigit ∧ symbol.length = 6 then "stock"
  else "unknown"

/-- A Korea-zone wall-clock instant as `is_kis_market_open` observes it:
`weekday` follows Python `datetime.weekday()` (Monday = 0 … Sunday = 6). -/
structure KoreaTime where
  weekday : Nat
  hour : Nat
  minute : Nat
  second : Nat
  microsecond : Nat
deriving Repr, DecidableEq

/-- Microseconds since local midnight, the resolution at which the
`replace`-built bounds of `is_kis_market_open` compare on a same-day date. -/
def KoreaTime.sinceMidnight (t : KoreaTime) : Nat :=
  ((t.hour * 60 + t.minute) * 60 + t.second) * 1000000 + t.microsecond

/-- Translation of `main.is_kis_market_open`: if obtaining the zoned time
raises, trading is allowed (fail-open); weekends are closed; otherwise open
exactly between the 09:00:00.000000 and 15:30:00.000000 bounds built with
`replace`, inclusive on both ends. -/
def is_kis_market_open (tzFail : Bool) (t : KoreaTime) : Bool :=
  if tzFail then true
  else if t.weekday ≥ 5 then false
  else
    decide ((KoreaTime.mk t.weekday 9 0 0 0).sinceMidnight ≤ t.sinceMidnight) &&
    decide (t.sinceMidnight ≤ (KoreaTime.mk t.weekday 15 30 0 0).sinceMidnight)

/-! ## main.py — webhook buy path -/

/-- Observable side effects of one buy-path request, in call order: a sizing
call into `calculate_dynamic_kelly_fraction`, price queries, and order
placements on either adapter. -/
inductive Effect where
  | kellySizing (symbol : String) (capital : ℚ)
  | upbitPriceQuery (symbol : String)
  | upbitOrder (symbol : String) (side : String) (amount : ℚ)
  | kisPriceQuery (symbol : String)
  | kisOrder (symbol : String) (side : String) (qty : Nat)
deriving Repr, DecidableEq

/-- Outcome of the webhook handler: either a raised `HTTPException` (status
code and the static part of its detail string) or a JSON-dict response. -/
inductive Outcome where
  | http (code : Nat) (detail : String)
  | ok (body : Dict)
deriving Repr

/-- Holds exactly when an outcome is a skipped-status JSON response. -/
def Outcome.statusSkipped : Outcome → Prop
  | .http _ _ => False
  | .ok body => Dict.find body "status" = some (Val.str "skipped")

/-- Environment of the webhook buy path: configuration flags, the Korea-zone
clock, and the results each external adapter call would produce.  Adapters
that catch their own errors are modelled by their returned value; adapters
that raise are modelled with `Except` / `Option` as in the source. -/
structure WebEnv where
  upbitReady : Bool
  kisConfigured : Bool
  allowDuplicateBuy : Bool
  tzFail : Bool
  now : KoreaTime
  upbitPosition : String → ℚ
  upbitBalance : String → ℚ
  upbitLastPrice : String → Option ℚ
  upbitOrderResult : Except String Dict
  kisPosition : String → ℚ
  kisCash : ℚ
  kisPrice : String → Option Nat
  kisOrderResult : Option Dict
  kelly : KellyEnv

/-- Translation of the crypto buy branch of `tradingview_webhook`
(`symbol_type == "crypto"` under a buy alert): require the Upbit client,
skip on an existing position unless duplicates are allowed, reject a balance
below the 5000 KRW minimum with HTTP 400, then size with the Kelly engine,
query the last price, and place a market buy; an adapter exception becomes
HTTP 500 through the handler's final `except` clause.  Journal updates are
best-effort and carry no observable effect. -/
def buy_crypto (env : WebEnv) (symbol : String) : Outcome × List Effect :=
  if ¬ env.upbitReady then
    (.http 500 "Upbit 클라이언트가 초기화되지 않았습니다", [])
  else
    let current_position := env.upbitPosition symbol
    if current_position > 0 ∧ ¬ env.allowDuplicateBuy then
      (.ok [("status", Val.str "skipped"),
            ("reason", Val.str "existing_position"),
            ("symbol", Val.str symbol),
            ("exchange", Val.str "upbit"),
            ("current_position", Val.num (PFloat.val current_position))], [])
    else
      let available_krw := env.upbitBalance "KRW"
      if available_krw < 5000 then
        (.http 400 "Insufficient Upbit KRW balance", [])
      else
        let sized := calculate_dynamic_kelly_fraction env.kelly symbol available_krw none
        let kelly_amount := sized.1
        let kelly_stats := sized.2
        let effects := [Effect.kellySizing symbol available_krw,
                        Effect.upbitPriceQuery symbol,
                        Effect.upbitOrder symbol "buy" kelly_amount]
        match env.upbitOrderResult with
        | .error e => (.http 500 ("Internal server error: " ++ e), effects)
        | .ok trade_details =>
            (.ok [("status", Val.str "success"),
                  ("strategy", Val.str "signal_buy"),
                  ("symbol", Val.str symbol),
                  ("exchange", Val.str "upbit"),
                  ("side", Val.str "buy"),
                  ("quantity", Val.num (PFloat.val kelly_amount)),
                  ("kelly_stats", Val.dict kelly_stats),
                  ("details", Val.dict trade_details)], effects)

/-- Translation of the stock buy branch of `tradingview_webhook`
(`symbol_type == "stock"` under a buy alert): require the KIS configuration,
skip when the market-hours gate reports closed, skip on an existing position
unless duplicates are allowed, reject cash below the 10000 KRW minimum with
HTTP 400, size with the Kelly engine, query the current price (absent or zero
price is HTTP 500), convert the allocation to whole shares by floor division
(zero shares is HTTP 400), and place the order (adapter returning nothing is
HTTP 500). -/
def buy_stock (env : WebEnv) (symbol : String) : Outcome × List Effect :=
  if ¬ env.kisConfigured then
    (.http 500 "KIS API 설정이 완료되지 않았습니다", [])
  else if ¬ is_kis_market_open env.tzFail env.now then
    (.ok [("status", Val.str "skipped"),
          ("reason", Val.str "market_closed"),
          ("symbol", Val.str symbol),
          ("exchange", Val.str "kis"),
          ("message", Val.str "Korean stock market is closed. Trading hours: 09:00-15:30 KST, Mon-Fri")], [])
  else
    let current_position := env.kisPosition symbol
    if current_position > 0 ∧ ¬ env.allowDuplicateBuy then
      (.ok [("status", Val.str "skipped"),
            ("reason", Val.str "existing_position"),
            ("symbol", Val.str symbol),
            ("exchange", Val.str "kis"),
            ("current_position", Val.num (PFloat.val current_position))], [])
    else
      let available_krw := env.kisCash
      if available_krw < 10000 then
        (.http 400 "Insufficient KIS KRW balance", [])
      else
        let sized := calculate_dynamic_kelly_fraction env.kelly symbol available_krw none
        let kelly_amount := sized.1
        let kelly_stats := sized.2
        match env.kisPrice symbol with
        | none =>
            (.http 500 "주가 정보를 조회할 수 없습니다",
             [Effect.kellySizing symbol available_krw, Effect.kisPriceQuery symbol])
        | some current_price =>
            if current_price = 0 then
              (.http 500 "유효하지 않은 주가",
               [Effect.kellySizing symbol available_krw, Effect.kisPriceQuery symbol])
            else
              let max_quantity : Nat := (Int.toNat ⌊kelly_amount / (current_price : ℚ)⌋)
              if max_quantity = 0 then
                (.http 400 "매수 금액이 부족합니다",
                 [Effect.kellySizing symbol available_krw, Effect.kisPriceQuery symbol])
              else
                let effects := [Effect.kellySizing symbol available_krw,
                                Effect.kisPriceQuery symbol,
                                Effect.kisOrder symbol "buy" max_quantity]
                match env.kisOrderResult with
                | none => (.http 500 "KIS 매수 주문 실패", effects)
                | some trade_details =>
                    (.ok [("status", Val.str "success"),
                          ("strategy", Val.str "signal_buy"),
                          ("symbol", Val.str symbol),
                          ("exchange", Val.str "kis"),
                          ("side", Val.str "buy"),
                          ("quantity", Val.num (PFloat.val (max_quantity : ℚ))),
                          ("price", Val.num (PFloat.val (current_price : ℚ))),
                          ("total_amount", Val.num (PFloat.val ((max_quantity * current_price : Nat) : ℚ))),
                          ("kelly_stats", Val.dict kelly_stats),
                          ("details", Val.dict trade_details)], effects)

/-- Translation of the buy-alert portion of `tradingview_webhook` after the
passphrase check: a missing symbol is HTTP 400, an unrecognized symbol is
HTTP 400, and the classified symbol routes to the matching exchange branch.
The classifier returns only three kinds, so the final branch is the stock
route. -/
def tradingview_webhook_buy (env : WebEnv) (symbol : String) : Outcome × List Effect :=
  if symbol = "" then (.http 400 "Missing symbol", [])
  else
    let symbol_type := detect_symbol_type symbol
    if symbol_type = "unknown" then
      (.http 400 "Unsupported symbol format", [])
    else if symbol_type = "crypto" then buy_crypto env symbol
    else buy_stock env symbol

/-! ## Concrete environments used by witnesses and counterexamples -/

/-- Sizing environment whose `try` body raises (exception-fallback path). -/
def excEnv : KellyEnv := ⟨fun _ => Frame.emptyFrame, fun _ => Frame.emptyFrame, true⟩

/-- Sizing environment whose fetchers return empty history and whose body does
not raise: the volatility default 0.02 applies. -/
def emptyHistEnv : KellyEnv := ⟨fun _ => Frame.emptyFrame, fun _ => Frame.emptyFrame, false⟩

/-- Sizing environment whose crypto fetcher returns exactly one price point. -/
def onePointEnv : KellyEnv := ⟨fun _ => ⟨["close"], [100]⟩, fun _ => Frame.emptyFrame, false⟩

/-- Sizing environment whose stock fetcher returns exactly one price point. -/
def onePointStockEnv : KellyEnv :=
  ⟨fun _ => Frame.emptyFrame, fun _ => ⟨["Close"], [70000]⟩, false⟩

/-- Webhook environment with no open position and balances below both
exchange minimums, observed on a Monday at 10:00 KST. -/
def webLowBal : WebEnv :=
  { upbitReady := true, kisConfigured := true, allowDuplicateBuy := false,
    tzFail := false, now := ⟨0, 10, 0, 0, 0⟩,
    upbitPosition := fun _ => 0, upbitBalance := fun _ => 4999,
    upbitLastPrice := fun _ => none, upbitOrderResult := Except.ok [],
    kisPosition := fun _ => 0, kisCash := 9999, kisPrice := fun _ => some 70000,
    kisOrderResult := some [], kelly := emptyHistEnv }

/-- Webhook environment holding open positions on both exchanges, duplicate
buys disabled, observed on a Monday at 10:00 KST. -/
def webHasPos : WebEnv :=
  { upbitReady := true, kisConfigured := true, allowDuplicateBuy := false,
    tzFail := false, now := ⟨0, 10, 0, 0, 0⟩,
    upbitPosition := fun _ => 0.5, upbitBalance := fun _ => 100000,
    upbitLastPrice := fun _ => none, upbitOrderResult := Except.ok [],
    kisPosition := fun _ => 3, kisCash := 50000, kisPrice := fun _ => some 70000,
    kisOrderResult := some [], kelly := emptyHistEnv }

/-- Webhook environment observed on a Saturday at 10:00 KST with ample funds
and no positions. -/
def webSaturday : WebEnv :=
  { upbitReady := true, kisConfigured := true, allowDuplicateBuy := false,
    tzFail := false, now := ⟨5, 10, 0, 0, 0⟩,
    upbitPosition := fun _ => 0, upbitBalance := fun _ => 100000,
    upbitLastPrice := fun _ => none, upbitOrderResult := Except.ok [],
    kisPosition := fun _ => 0, kisCash := 50000, kisPrice := fun _ => some 70000,
    kisOrderResult := some [], kelly := emptyHistEnv }

/-! ## Helper lemmas -/

/-- Python `max` on non-NaN floats agrees with the order-theoretic `max`. -/
theorem pyMax_eq_max (a b : ℚ) : pyMax a b = max a b := by
  unfold pyMax
  rw [max_def]
  split <;> split <;> try rfl
  · exact absurd (le_of_lt (by assumption)) (by assumption)
  · exact le_antisymm (by assumption) (not_lt.mp (by assumption))

/-- Python `min` on non-NaN floats agrees with the order-theoretic `min`. -/
theorem pyMin_eq_min (a b : ℚ) : pyMin a b = min a b := by
  unfold pyMin
  rw [min_def]
  split <;> split <;> try rfl
  · exact absurd (lt_of_lt_of_le (by assumption) (by assumption)) (lt_irrefl b)
  · exact absurd (not_le.mp (by assumption)) (by assumption)

/-- Every tier fraction is one of the four constants of the source table. -/
theorem tier_mem (v : PFloat) :
    (tier_for_volatility v).1 = 0.40 ∨ (tier_for_volatility v).1 = 0.30 ∨
    (tier_for_volatility v).1 = 0.20 ∨ (tier_for_volatility v).1 = 0.15 := by
  unfold tier_for_volatility
  split_ifs <;> simp

/-- The defensive clamp `max(0.10, min(t, 0.50))` leaves every tier fraction
unchanged. -/
theorem kelly_fraction_eq_tier (v : PFloat) :
    pyMax 0.10 (pyMin (tier_for_volatility v).1 0.50) = (tier_for_volatility v).1 := by
  rcases tier_mem v with h | h | h | h <;> rw [h] <;> norm_num [pyMax, pyMin]

/-- Core shape of the non-exception final amount: for any volatility, the
amount is `min (max (c * f) 5000) c` for a clamped fraction `f ∈ [0.10, 0.50]`. -/
theorem shape_core (c : ℚ) (v : PFloat) :
    ∃ f : ℚ, 1/10 ≤ f ∧ f ≤ 1/2 ∧
      pyMin (pyMax (c * pyMax 0.10 (pyMin (tier_for_volatility v).1 0.50)) 5000) c
        = min (max (c * f) 5000) c := by
  refine ⟨(tier_for_volatility v).1, ?_, ?_, ?_⟩
  · rcases tier_mem v with h | h | h | h <;> rw [h] <;> norm_num
  · rcases tier_mem v with h | h | h | h <;> rw [h] <;> norm_num
  · rw [kelly_fraction_eq_tier, pyMin_eq_min, pyMax_eq_max]

/-- On the non-exception path the returned amount has the floor-and-cap shape
for some clamped fraction in `[0.10, 0.50]`. -/
theorem kelly_amount_shape (env : KellyEnv) (s : String) (c : ℚ) (vs : Option String)
    (h : env.exc = false) :
    ∃ f : ℚ, 1/10 ≤ f ∧ f ≤ 1/2 ∧
      (calculate_dynamic_kelly_fraction env s c vs).1 = min (max (c * f) 5000) c := by
  unfold calculate_dynamic_kelly_fraction
  rw [h]
  simp only [Bool.false_eq_true, if_false]
  apply shape_core

/-- Lookup of the `kelly_fraction` entry in the non-exception decision record:
it is the clamped tier fraction and lies in `[0.10, 0.50]`. -/
theorem find_kf_core (v : PFloat) (m n : String) (a b : PFloat) (x y z : ℚ) :
    ∃ f : ℚ,
      Dict.find
        [("method", Val.str m),
         ("volatility", Val.num a),
         ("volatility_kelly", Val.num b),
         ("fixed_kelly", Val.num (PFloat.val 0.25)),
         ("aggressive_kelly", Val.num (PFloat.val 0.50)),
         ("tier_kelly", Val.num (PFloat.val (tier_for_volatility v).1)),
         ("tier_name", Val.str n),
         ("kelly_fraction", Val.num (PFloat.val (pyMax 0.10 (pyMin (tier_for_volatility v).1 0.50)))),
         ("kelly_amount", Val.num (PFloat.val x)),
         ("final_amount", Val.num (PFloat.val y)),
         ("available_krw", Val.num (PFloat.val z)),
         ("min_threshold", Val.num (PFloat.val 0.10)),
         ("max_threshold", Val.num (PFloat.val 0.50))] "kelly_fraction"
        = some (Val.num (PFloat.val f)) ∧ 1/10 ≤ f ∧ f ≤ 1/2 := by
  refine ⟨pyMax 0.10 (pyMin (tier_for_volatility v).1 0.50), ?_, ?_, ?_⟩
  · simp [Dict.find]
  · rw [kelly_fraction_eq_tier]
    rcases tier_mem v with h | h | h | h <;> rw [h] <;> norm_num
  · rw [kelly_fraction_eq_tier]
    rcases tier_mem v with h | h | h | h <;> rw [h] <;> norm_num

/-- Weekend days close the market gate. -/
theorem mo_weekend (t : KoreaTime) (h : t.weekday ≥ 5) : is_kis_market_open false t = false := by
  unfold is_kis_market_open
  simp [h]

/-- Before 09:00:00 the market gate reports closed. -/
theorem mo_before (t : KoreaTime) (h : t.sinceMidnight < 32400000000) :
    is_kis_market_open false t = false := by
  unfold is_kis_market_open
  by_cases hw : t.weekday ≥ 5
  · simp [hw]
  · simp only [hw, if_false, Bool.false_eq_true]
    simp only [Bool.and_eq_false_iff, decide_eq_false_iff_not, not_le]
    left
    unfold KoreaTime.sinceMidnight at h ⊢
    simp only
    omega

/-- After 15:30:00 the market gate reports closed. -/
theorem mo_after (t : KoreaTime) (h : 55800000000 < t.sinceMidnight) :
    is_kis_market_open false t = false := by
  unfold is_kis_market_open
  by_cases hw : t.weekday ≥ 5
  · simp [hw]
  · simp only [hw, if_false, Bool.false_eq_true]
    simp only [Bool.and_eq_false_iff, decide_eq_false_iff_not, not_le]
    right
    unfold KoreaTime.sinceMidnight at h ⊢
    simp only
    omega

/-- Outside the Monday–Friday 09:00–15:30 window the market gate reports
closed (when the time-zone lookup does not fail). -/
theorem market_open_false_of_outside (t : KoreaTime)
    (h : t.weekday ≥ 5 ∨ t.sinceMidnight < 32400000000 ∨ 55800000000 < t.sinceMidnight) :
    is_kis_market_open false t = false := by
  rcases h with h | h | h
  · exact mo_weekend t h
  · exact mo_before t h
  · exact mo_after t h

/-! ## Claim theorems -/

/-- C1, counterexample: on the exception-fallback path with available capital
4000 (below the 5000 floor) the returned amount is 5000, which exceeds the
available capital — so the bound `a ≤ c` claimed for every return path fails. -/
theorem C1_counterexample :
    (calculate_dynamic_kelly_fraction excEnv "KRW-BTC" 4000 none).1 = 5000 ∧
    ¬ ((calculate_dynamic_kelly_fraction excEnv "KRW-BTC" 4000 none).1 ≤ 4000) := by
  have h : (calculate_dynamic_kelly_fraction excEnv "KRW-BTC" 4000 none).1 = 5000 := by
    unfold calculate_dynamic_kelly_fraction excEnv
    norm_num [pyMax]
  exact ⟨h, by rw [h]; norm_num⟩

/-- C1, amended: for every capital `c ≥ 0`, the bounds
`min(c, 5000) ≤ a ∧ a ≤ c` (for `c ≥ 5000`) and `a ≤ c` (for `c < 5000`) hold
on the non-exception return path; on the exception-fallback path they hold
whenever `c ≥ 5000` (for `c < 5000` that path returns 5000 > c). -/
theorem C1_amount_bounds (env : KellyEnv) (s : String) (c : ℚ) (vs : Option String)
    (hc : 0 ≤ c) (hp : env.exc = false ∨ 5000 ≤ c) :
    (5000 ≤ c → min c 5000 ≤ (calculate_dynamic_kelly_fraction env s c vs).1 ∧
      (calculate_dynamic_kelly_fraction env s c vs).1 ≤ c) ∧
    (c < 5000 → (calculate_dynamic_kelly_fraction env s c vs).1 ≤ c) := by
  by_cases hexc : env.exc = true
  · have h5 : 5000 ≤ c := by
      rcases hp with hf | h5
      · rw [hexc] at hf; exact absurd hf (by simp)
      · exact h5
    have hval : (calculate_dynamic_kelly_fraction env s c vs).1 = max (c * 0.25) 5000 := by
      unfold calculate_dynamic_kelly_fraction
      rw [hexc]
      simp only [if_true]
      rw [pyMax_eq_max]
    rw [hval]
    refine ⟨fun _ => ⟨(min_le_right c 5000).trans (le_max_right _ _),
      max_le (by linarith) h5⟩, fun hlt => absurd hlt (not_lt.mpr h5)⟩
  · have h0 : env.exc = false := by revert hexc; cases env.exc <;> simp
    obtain ⟨f, hf1, hf2, he⟩ := kelly_amount_shape env s c vs h0
    rw [he]
    exact ⟨fun h5 => ⟨le_min ((min_le_right c 5000).trans (le_max_right _ _)) (min_le_left c 5000),
      min_le_right _ _⟩, fun _ => min_le_right _ _⟩

/-- C1, witness: the amended bounds evaluated at the empty-history environment
with capital 10000. -/
theorem C1_amount_bounds_witness :
    (5000 ≤ (10000 : ℚ) →
      min (10000 : ℚ) 5000 ≤ (calculate_dynamic_kelly_fraction emptyHistEnv "KRW-BTC" 10000 none).1 ∧
      (calculate_dynamic_kelly_fraction emptyHistEnv "KRW-BTC" 10000 none).1 ≤ 10000) ∧
    ((10000 : ℚ) < 5000 →
      (calculate_dynamic_kelly_fraction emptyHistEnv "KRW-BTC" 10000 none).1 ≤ 10000) :=
  C1_amount_bounds emptyHistEnv "KRW-BTC" 10000 none (by norm_num) (Or.inl rfl)

/-- C2, counterexample: with a fetched history of exactly one price point the
stored volatility is NaN (not the 0.02 default) and the selected tier fraction
is 0.15 (not the moderate 0.30 the claim asserts). -/
theorem C2_counterexample :
    Dict.find (calculate_dynamic_kelly_fraction onePointEnv "KRW-BTC" 1000000 none).2 "volatility"
      = some (Val.num PFloat.nan) ∧
    Dict.find (calculate_dynamic_kelly_fraction onePointEnv "KRW-BTC" 1000000 none).2 "tier_kelly"
      = some (Val.num (PFloat.val 0.15)) ∧
    (0.15 : ℚ) ≠ 0.30 := by
  have hd : «_detect_symbol_type» "KRW-BTC" = "crypto" := by decide
  refine ⟨?_, ?_, by norm_num⟩ <;>
  · unfold calculate_dynamic_kelly_fraction onePointEnv
    simp [hd, volatility_from, Frame.isEmpty, sampleStd, pct_change_dropna,
      tier_for_volatility, PFloat.leq, Dict.find]

/-- C2, amended: when the fetched frame is nonempty with the expected price
column but holds exactly one price point — on the crypto branch (`close`
column) as well as the equity branch (`Close` column) — the percentage-change
series is empty, the sample standard deviation is NaN, and NaN fails every
tier comparison, so the high-volatility tier fraction 0.15 is selected; and
the 0.02 default volatility arises exactly when the frame is empty or the
expected price column is absent. -/
theorem C2_one_point_nan (env : KellyEnv) (s : String) (c p : ℚ) (cols : List String) :
    (env.exc = false → «_detect_symbol_type» s = "crypto" →
      env.fetchCrypto s = ⟨cols, [p]⟩ → "close" ∈ cols →
      pct_change_dropna [p] = [] ∧
      Dict.find (calculate_dynamic_kelly_fraction env s c none).2 "volatility"
        = some (Val.num PFloat.nan) ∧
      Dict.find (calculate_dynamic_kelly_fraction env s c none).2 "tier_kelly"
        = some (Val.num (PFloat.val 0.15))) ∧
    (env.exc = false → «_detect_symbol_type» s = "stock" →
      env.fetchStock s = ⟨cols, [p]⟩ → "Close" ∈ cols →
      pct_change_dropna [p] = [] ∧
      Dict.find (calculate_dynamic_kelly_fraction env s c none).2 "volatility"
        = some (Val.num PFloat.nan) ∧
      Dict.find (calculate_dynamic_kelly_fraction env s c none).2 "tier_kelly"
        = some (Val.num (PFloat.val 0.15))) ∧
    (∀ (df : Frame) (col : String),
      volatility_from df col = PFloat.val 0.02 ↔ (df.isEmpty = true ∨ col ∉ df.cols)) := by
  refine ⟨?_, ?_, ?_⟩
  · intro h0 hs hf hcol
    refine ⟨rfl, ?_, ?_⟩ <;>
    · unfold calculate_dynamic_kelly_fraction
      rw [h0]
      simp [hs, hf, volatility_from, Frame.isEmpty, sampleStd, pct_change_dropna,
        tier_for_volatility, PFloat.leq, Dict.find, hcol]
  · intro h0 hs hf hcol
    have hnc : ¬ («_detect_symbol_type» s = "crypto") := by rw [hs]; decide
    refine ⟨rfl, ?_, ?_⟩ <;>
    · unfold calculate_dynamic_kelly_fraction
      rw [h0]
      simp [hs, hnc, hf, volatility_from, Frame.isEmpty, sampleStd, pct_change_dropna,
        tier_for_volatility, PFloat.leq, Dict.find, hcol]
  · intro df col
    unfold volatility_from
    split_ifs with h
    · constructor
      · intro he
        exfalso
        revert he
        unfold sampleStd
        split_ifs <;> simp
      · intro hor
        rcases hor with h1 | h2
        · exact absurd h1 h.1
        · exact absurd h.2 h2
    · refine ⟨fun _ => ?_, fun _ => rfl⟩
      rcases not_and_or.mp h with h1 | h2
      · exact Or.inl (not_not.mp h1)
      · exact Or.inr h2

/-- C2, witness: the amended statement evaluated at a crypto one-price-point
environment, an equity one-price-point environment, and the empty frame for
the default clause. -/
theorem C2_one_point_nan_witness :
    (pct_change_dropna [(100 : ℚ)] = [] ∧
     Dict.find (calculate_dynamic_kelly_fraction onePointEnv "KRW-BTC" 1000000 none).2 "volatility"
       = some (Val.num PFloat.nan) ∧
     Dict.find (calculate_dynamic_kelly_fraction onePointEnv "KRW-BTC" 1000000 none).2 "tier_kelly"
       = some (Val.num (PFloat.val 0.15))) ∧
    (pct_change_dropna [(70000 : ℚ)] = [] ∧
     Dict.find (calculate_dynamic_kelly_fraction onePointStockEnv "005930" 1000000 none).2 "volatility"
       = some (Val.num PFloat.nan) ∧
     Dict.find (calculate_dynamic_kelly_fraction onePointStockEnv "005930" 1000000 none).2 "tier_kelly"
       = some (Val.num (PFloat.val 0.15))) ∧
    volatility_from Frame.emptyFrame "close" = PFloat.val 0.02 :=
  ⟨(C2_one_point_nan onePointEnv "KRW-BTC" 1000000 100 ["close"]).1 rfl (by decide) rfl (by simp),
   (C2_one_point_nan onePointStockEnv "005930" 1000000 70000 ["Close"]).2.1 rfl (by decide) rfl
     (by simp),
   ((C2_one_point_nan onePointEnv "KRW-BTC" 1000000 100 ["close"]).2.2 Frame.emptyFrame
       "close").mpr (Or.inl rfl)⟩

/-- C3, counterexample: with no open position and an Upbit balance of 4999
(below the 5000 minimum) the crypto buy path raises HTTP 400, which is not a
skipped-status response as the claim asserts. -/
theorem C3_counterexample :
    buy_crypto webLowBal "KRW-BTC" = (.http 400 "Insufficient Upbit KRW balance", []) ∧
    ¬ (buy_crypto webLowBal "KRW-BTC").1.statusSkipped := by
  have h : buy_crypto webLowBal "KRW-BTC" = (.http 400 "Insufficient Upbit KRW balance", []) := by
    unfold buy_crypto webLowBal
    norm_num
  refine ⟨h, ?_⟩
  rw [h]
  simp [Outcome.statusSkipped]

/-- C3, amended: on the buy path, when available capital is below the
exchange-specific minimum (5000 for crypto, 10000 for equities) and the
earlier gates pass, the request fails with HTTP 400 (an insufficient-balance
error response, not a skipped status), with no sizing performed and no order
placed. -/
theorem C3_low_balance_is_error (env : WebEnv) (s : String) :
    (env.upbitReady = true → ¬ (env.upbitPosition s > 0 ∧ ¬ env.allowDuplicateBuy = true) →
      env.upbitBalance "KRW" < 5000 →
      buy_crypto env s = (.http 400 "Insufficient Upbit KRW balance", [])) ∧
    (env.kisConfigured = true → is_kis_market_open env.tzFail env.now = true →
      ¬ (env.kisPosition s > 0 ∧ ¬ env.allowDuplicateBuy = true) →
      env.kisCash < 10000 →
      buy_stock env s = (.http 400 "Insufficient KIS KRW balance", [])) := by
  constructor
  · intro hr hpos hbal
    unfold buy_crypto
    rw [hr]
    simp only [not_true, if_false]
    rw [if_neg hpos, if_pos hbal]
  · intro hk hopen hpos hcash
    unfold buy_stock
    rw [hk, hopen]
    simp only [not_true, if_false]
    rw [if_neg hpos, if_pos hcash]

/-- C3, witness: both low-balance branches evaluated in the low-balance
environment. -/
theorem C3_low_balance_is_error_witness :
    buy_crypto webLowBal "KRW-BTC" = (.http 400 "Insufficient Upbit KRW balance", []) ∧
    buy_stock webLowBal "005930" = (.http 400 "Insufficient KIS KRW balance", []) :=
  ⟨(C3_low_balance_is_error webLowBal "KRW-BTC").1 rfl (by norm_num [webLowBal])
      (by norm_num [webLowBal]),
   (C3_low_balance_is_error webLowBal "005930").2 rfl (by decide)
      (by norm_num [webLowBal]) (by norm_num [webLowBal])⟩

/-- C4: for every input (any volatility, any capital, either return path) the
`kelly_fraction` entry of the decision record is a rational in `[0.10, 0.50]`. -/
theorem C4_fraction_clamped (env : KellyEnv) (s : String) (c : ℚ) (vs : Option String) :
    ∃ f : ℚ, Dict.find (calculate_dynamic_kelly_fraction env s c vs).2 "kelly_fraction"
        = some (Val.num (PFloat.val f)) ∧ 1/10 ≤ f ∧ f ≤ 1/2 := by
  by_cases hexc : env.exc = true
  · refine ⟨0.25, ?_, by norm_num, by norm_num⟩
    unfold calculate_dynamic_kelly_fraction
    rw [hexc]
    simp [Dict.find]
  · have h0 : env.exc = false := by revert hexc; cases env.exc <;> simp
    unfold calculate_dynamic_kelly_fraction
    rw [h0]
    simp only [Bool.false_eq_true, if_false]
    apply find_kf_core

/-- C5: the tier lookup is exact and left-closed: `v ≤ 0.01` selects 0.40,
`0.01 < v ≤ 0.02` selects 0.30, `0.02 < v ≤ 0.03` selects 0.20, and
`v > 0.03` selects 0.15. -/
theorem C5_tier_boundaries (v : ℚ) :
    (v ≤ 0.01 → (tier_for_volatility (PFloat.val v)).1 = 0.40) ∧
    (0.01 < v → v ≤ 0.02 → (tier_for_volatility (PFloat.val v)).1 = 0.30) ∧
    (0.02 < v → v ≤ 0.03 → (tier_for_volatility (PFloat.val v)).1 = 0.20) ∧
    (0.03 < v → (tier_for_volatility (PFloat.val v)).1 = 0.15) := by
  unfold tier_for_volatility
  simp only [PFloat.leq, decide_eq_true_eq]
  split_ifs with h1 h2 h3 <;>
    refine ⟨fun ha => ?_, fun ha hb => ?_, fun ha hb => ?_, fun ha => ?_⟩ <;>
    first | rfl | linarith

/-- C5, witness: the four boundary inputs of the claim. -/
theorem C5_tier_boundaries_witness :
    (tier_for_volatility (PFloat.val 0.01)).1 = 0.40 ∧
    (tier_for_volatility (PFloat.val 0.01000001)).1 = 0.30 ∧
    (tier_for_volatility (PFloat.val 0.03)).1 = 0.20 ∧
    (tier_for_volatility (PFloat.val 0.03000001)).1 = 0.15 :=
  ⟨(C5_tier_boundaries 0.01).1 (by norm_num),
   (C5_tier_boundaries 0.01000001).2.1 (by norm_num) (by norm_num),
   (C5_tier_boundaries 0.03).2.2.1 (by norm_num) (by norm_num),
   (C5_tier_boundaries 0.03000001).2.2.2 (by norm_num)⟩

/-- C6: the sizing engine is a total function of its environment (it never
propagates an exception), and whenever an internal exception occurs it returns
exactly `max(available_capital * 0.25, 5000)` with the minimal error-tagged
decision record. -/
theorem C6_exception_fallback (env : KellyEnv) (s : String) (c : ℚ) (vs : Option String)
    (h : env.exc = true) :
    calculate_dynamic_kelly_fraction env s c vs
      = (max (c * 0.25) 5000,
         [("method", Val.str "error"), ("kelly_fraction", Val.num (PFloat.val 0.25))]) := by
  unfold calculate_dynamic_kelly_fraction
  rw [h]
  simp only [if_true]
  rw [pyMax_eq_max]

/-- C6, witness: the exception fallback evaluated at capital 4000. -/
theorem C6_exception_fallback_witness :
    calculate_dynamic_kelly_fraction excEnv "KRW-BTC" 4000 none
      = (max ((4000 : ℚ) * 0.25) 5000,
         [("method", Val.str "error"), ("kelly_fraction", Val.num (PFloat.val 0.25))]) :=
  C6_exception_fallback excEnv "KRW-BTC" 4000 none rfl

/-- C7: on either exchange's buy path, a positive current position with
duplicate buys disabled yields the skipped / existing_position response and
produces no observable effect (no sizing, no price query, no order). -/
theorem C7_duplicate_gate (env : WebEnv) (s : String) :
    (env.upbitReady = true → env.upbitPosition s > 0 → env.allowDuplicateBuy = false →
      buy_crypto env s =
        (.ok [("status", Val.str "skipped"),
              ("reason", Val.str "existing_position"),
              ("symbol", Val.str s),
              ("exchange", Val.str "upbit"),
              ("current_position", Val.num (PFloat.val (env.upbitPosition s)))], [])) ∧
    (env.kisConfigured = true → is_kis_market_open env.tzFail env.now = true →
      env.kisPosition s > 0 → env.allowDuplicateBuy = false →
      buy_stock env s =
        (.ok [("status", Val.str "skipped"),
              ("reason", Val.str "existing_position"),
              ("symbol", Val.str s),
              ("exchange", Val.str "kis"),
              ("current_position", Val.num (PFloat.val (env.kisPosition s)))], [])) := by
  constructor
  · intro hr hpos hdup
    unfold buy_crypto
    rw [hr]
    simp only [not_true, if_false]
    rw [if_pos ⟨hpos, by rw [hdup]; simp⟩]
  · intro hk hopen hpos hdup
    unfold buy_stock
    rw [hk, hopen]
    simp only [not_true, if_false]
    rw [if_pos ⟨hpos, by rw [hdup]; simp⟩]

/-- C7, witness: both duplicate gates evaluated in the has-position
environment. -/
theorem C7_duplicate_gate_witness :
    buy_crypto webHasPos "KRW-BTC" =
      (.ok [("status", Val.str "skipped"),
            ("reason", Val.str "existing_position"),
            ("symbol", Val.str "KRW-BTC"),
            ("exchange", Val.str "upbit"),
            ("current_position", Val.num (PFloat.val (webHasPos.upbitPosition "KRW-BTC")))], []) ∧
    buy_stock webHasPos "005930" =
      (.ok [("status", Val.str "skipped"),
            ("reason", Val.str "existing_position"),
            ("symbol", Val.str "005930"),
            ("exchange", Val.str "kis"),
            ("current_position", Val.num (PFloat.val (webHasPos.kisPosition "005930")))], []) :=
  ⟨(C7_duplicate_gate webHasPos "KRW-BTC").1 rfl (by norm_num [webHasPos]) rfl,
   (C7_duplicate_gate webHasPos "005930").2 rfl (by decide) (by norm_num [webHasPos]) rfl⟩

/-- C8: an equity buy alert (symbol classified stock) received outside market
hours — weekend, or weekday outside 09:00–15:30 KST — returns the skipped /
market_closed response with no observable effect (no price query, no order);
and if the time-zone check raises, the market is treated as open. -/
theorem C8_market_closed (env : WebEnv) (s : String) :
    (detect_symbol_type s = "stock" → env.kisConfigured = true → env.tzFail = false →
      (env.now.weekday ≥ 5 ∨ env.now.sinceMidnight < 32400000000 ∨
        55800000000 < env.now.sinceMidnight) →
      tradingview_webhook_buy env s =
        (.ok [("status", Val.str "skipped"),
              ("reason", Val.str "market_closed"),
              ("symbol", Val.str s),
              ("exchange", Val.str "kis"),
              ("message", Val.str "Korean stock market is closed. Trading hours: 09:00-15:30 KST, Mon-Fri")], [])) ∧
    (∀ t : KoreaTime, is_kis_market_open true t = true) := by
  constructor
  · intro hs hk htz hout
    have hne : ¬ s = "" := by
      intro he
      rw [he] at hs
      exact absurd hs (by decide)
    have hclosed : is_kis_market_open env.tzFail env.now = false := by
      rw [htz]
      exact market_open_false_of_outside env.now hout
    unfold tradingview_webhook_buy
    rw [if_neg hne, hs]
    simp only [if_neg (by decide : ¬ ("stock" : String) = "unknown"),
               if_neg (by decide : ¬ ("stock" : String) = "crypto")]
    unfold buy_stock
    rw [hk, hclosed]
    simp only [not_true, if_false, Bool.false_eq_true, not_false_iff, if_true]
  · intro t
    unfold is_kis_market_open
    simp

/-- C8, witness: a Saturday equity alert and a fail-open instant. -/
theorem C8_market_closed_witness :
    tradingview_webhook_buy webSaturday "005930" =
      (.ok [("status", Val.str "skipped"),
            ("reason", Val.str "market_closed"),
            ("symbol", Val.str "005930"),
            ("exchange", Val.str "kis"),
            ("message", Val.str "Korean stock market is closed. Trading hours: 09:00-15:30 KST, Mon-Fri")], []) ∧
    is_kis_market_open true ⟨6, 3, 0, 0, 0⟩ = true :=
  ⟨(C8_market_closed webSaturday "005930").1 (by decide) rfl rfl
      (Or.inl (by norm_num [webSaturday])),
   (C8_market_closed webSaturday "005930").2 ⟨6, 3, 0, 0, 0⟩⟩

/-- C9: on the non-exception path, for capital `0 ≤ c < 5000` the returned
amount equals `c` exactly: the tier amount is below the 5000 floor, the floor
fires, and the cap then reduces it to the full available capital. -/
theorem C9_below_floor (env : KellyEnv) (s : String) (c : ℚ) (vs : Option String)
    (h : env.exc = false) (hc0 : 0 ≤ c) (hc : c < 5000) :
    (calculate_dynamic_kelly_fraction env s c vs).1 = c := by
  obtain ⟨f, hf1, hf2, he⟩ := kelly_amount_shape env s c vs h
  rw [he]
  have hcf : c * f ≤ 5000 := by nlinarith
  rw [max_eq_right hcf, min_eq_right (le_of_lt hc)]

/-- C9, witness: capital 1000 is allocated in full. -/
theorem C9_below_floor_witness :
    (calculate_dynamic_kelly_fraction emptyHistEnv "KRW-BTC" 1000 none).1 = 1000 :=
  C9_below_floor emptyHistEnv "KRW-BTC" 1000 none rfl (by norm_num) (by norm_num)

/-- C10: the webhook's classifier and the sizing engine's classifier compute
the same classification for every symbol string. -/
theorem C10_classifiers_agree (s : String) :
    detect_symbol_type s = «_detect_symbol_type» s := by
  unfold detect_symbol_type «_detect_symbol_type»
  rfl

end TVLoagreen
